import Mathlib

/-!
Shallow embedding of the cart/checkout domain logic of the e-commerce
backend (src/services/cart.service.js and the address helper of
src/models/user.model.js), together with proofs of the specified
properties.

Modelling conventions:
* A product identifier is a `String` (Mongo ObjectId rendered via
  toString, which is how every comparison in the source coerces it).
* JS numbers used for money and quantities are modelled as `Int`.
* The per-user Mongo lookups (`Cart.findOne` by email,
  `Product.findById`) are modelled by passing the user's cart as an
  `Option Cart` and the product catalog as a `List Product` with
  `findById` performing the lookup.
* `async`/`await` with exceptions becomes `Except ApiError`; the
  happy path of persistence always succeeds.  Checkout's two `save`
  calls, whose failure behaviour matters for the atomicity property,
  are additionally modelled by `checkoutRun`, which takes an explicit
  success/failure outcome for each save and returns the state that is
  durably persisted afterwards.
-/

/-- A catalog product: identifier plus cost (src/models, read-only here). -/
structure Product where
  pid : String
  cost : Int
deriving Repr, DecidableEq

/-- A cart line item: product snapshot and quantity. -/
structure CartItem where
  product : Product
  quantity : Int
deriving Repr, DecidableEq

/-- A user's cart: owner email and ordered line items. -/
structure Cart where
  email : String
  cartItems : List CartItem
deriving Repr, DecidableEq

/-- The two User fields the cart service touches, plus identity. -/
structure User where
  email : String
  walletMoney : Int
  address : String
deriving Repr, DecidableEq

/-- An ApiError as thrown by the service: HTTP status code and message. -/
structure ApiError where
  statusCode : Nat
  message : String
deriving Repr, DecidableEq

def NOT_FOUND : Nat := 404

def BAD_REQUEST : Nat := 400

def INTERNAL_SERVER_ERROR : Nat := 500

/-- Product.findById over the catalog. -/
def findById (catalog : List Product) (productId : String) : Option Product :=
  catalog.find? (fun p => p.pid == productId)

/-- getCartByUser: fetch the user's cart, 404 when absent
(cart.service.js lines 17-23). -/
def getCartByUser (userCart : Option Cart) : Except ApiError Cart :=
  match userCart with
  | none => .error ⟨NOT_FOUND, "User does not have a cart"⟩
  | some c => .ok c

/-- userSchema.methods.hasSetNonDefaultAddress (user.model.js lines 89-93):
the address differs from the configured default sentinel. -/
def hasSetNonDefaultAddress (defaultAddress : String) (user : User) : Bool :=
  user.address != defaultAddress

/-- addProductToCart (cart.service.js lines 49-78).  The source fetches the
cart and the product, rejects an unknown product, creates a cart holding the
single new item when none exists, rejects a product already present, and
otherwise pushes the new line item at the end. -/
def addProductToCart (catalog : List Product) (userCart : Option Cart)
    (user : User) (productId : String) (quantity : Int) : Except ApiError Cart :=
  match findById catalog productId with
  | none => .error ⟨BAD_REQUEST, "Product doesn't exist in database"⟩
  | some productDoc =>
    match userCart with
    | none =>
        .ok { email := user.email
              cartItems := [{ product := productDoc, quantity := quantity }] }
    | some cartDoc =>
        if cartDoc.cartItems.any (fun items => items.product.pid == productId) then
          .error ⟨BAD_REQUEST,
            "Product already in cart. Use the cart sidebar to update or remove product from cart"⟩
        else
          .ok { cartDoc with
                cartItems := cartDoc.cartItems
                  ++ [{ product := productDoc, quantity := quantity }] }

/-- updateProductInCart (cart.service.js lines 104-131): reject a missing
cart, then a product absent from the catalog, then a product absent from the
cart; otherwise set the quantity of every line item whose product id matches
(the source maps over the items, mutating the matching ones). -/
def updateProductInCart (catalog : List Product) (userCart : Option Cart)
    (productId : String) (quantity : Int) : Except ApiError Cart :=
  match userCart with
  | none => .error ⟨BAD_REQUEST,
      "User does not have a cart. Use POST to create cart and add a product"⟩
  | some cart =>
    match findById catalog productId with
    | none => .error ⟨BAD_REQUEST, "Product doesn't exist in database"⟩
    | some _ =>
      match cart.cartItems.find? (fun items => items.product.pid == productId) with
      | none => .error ⟨BAD_REQUEST, "Product not in cart"⟩
      | some _ =>
          .ok { cart with
                cartItems := cart.cartItems.map (fun items =>
                  if items.product.pid == productId then
                    { items with quantity := quantity }
                  else items) }

/-- The forEach loop of deleteProductFromCart (cart.service.js lines
162-167): runs through the items with a counter, storing the position of
each match, so it ends holding the LAST matching index (or the initial -1). -/
def forEachIndex (items : List CartItem) (productId : String)
    (index : Int) (i : Int) : Int :=
  match items with
  | [] => index
  | ele :: rest =>
      forEachIndex rest productId
        (if ele.product.pid == productId then i else index) (i + 1)

def lastIndexOfProduct (items : List CartItem) (productId : String) : Int :=
  forEachIndex items productId (-1) 0

/-- JS Array.prototype.splice start-index normalisation. -/
def spliceStart (len : Nat) (start : Int) : Nat :=
  if start < 0 then ((len : Int) + start).toNat else min start.toNat len

/-- splice(start, 1): remove one element at the normalised start index. -/
def spliceOne (items : List CartItem) (start : Int) : List CartItem :=
  let s := spliceStart items.length start
  items.take s ++ items.drop (s + 1)

/-- deleteProductFromCart (cart.service.js lines 150-171): reject a missing
cart, then a product absent from the cart; otherwise splice out the line
item at the last matching index. -/
def deleteProductFromCart (userCart : Option Cart) (productId : String) :
    Except ApiError Cart :=
  match userCart with
  | none => .error ⟨BAD_REQUEST,
      "User does not have a cart. Use POST to create cart and add a product"⟩
  | some cart =>
    match cart.cartItems.find? (fun items => items.product.pid == productId) with
    | none => .error ⟨BAD_REQUEST, "Product not in cart"⟩
    | some _ =>
        .ok { cart with
              cartItems := spliceOne cart.cartItems
                (lastIndexOfProduct cart.cartItems productId) }

/-- The total of cart.service.js lines 197-200: fold of
quantity times the cost snapshot stored in the cart. -/
def cartTotal (cartItems : List CartItem) : Int :=
  cartItems.foldl (fun total element =>
    total + element.quantity * element.product.cost) 0

/-- checkout (cart.service.js lines 182-215): cart must exist and be
non-empty, the address must differ from the default sentinel, and the wallet
must cover the total; on success the wallet is debited by the total and the
cart's items are cleared, returning the updated user (the cleared cart is
kept and saved alongside). -/
def checkout (defaultAddress : String) (userCart : Option Cart) (user : User) :
    Except ApiError (User × Cart) :=
  match getCartByUser userCart with
  | .error e => .error e
  | .ok cart =>
    if cart.cartItems.length == 0 then
      .error ⟨BAD_REQUEST, "User's cart doesn't have any product"⟩
    else if !(hasSetNonDefaultAddress defaultAddress user) then
      .error ⟨BAD_REQUEST, "Address not set"⟩
    else
      let total := cartTotal cart.cartItems
      if user.walletMoney < total then
        .error ⟨BAD_REQUEST, "Wallet balance is insufficient"⟩
      else
        .ok ({ user with walletMoney := user.walletMoney - total },
             { cart with cartItems := [] })

/-- The durably persisted records for one user. -/
structure PersistedState where
  cart : Option Cart
  user : User
deriving Repr, DecidableEq

/-- One run of checkout against the store, with an explicit outcome for each
of its two sequential saves (cart.service.js lines 211-212: first
userCart.save(), then user.save()).  A save that fails raises, leaving the
stored record unchanged and skipping everything after it; the Bool result
records whether checkout returned normally. -/
def checkoutRun (defaultAddress : String) (st : PersistedState)
    (cartSaveOk userSaveOk : Bool) : PersistedState × Bool :=
  match checkout defaultAddress st.cart st.user with
  | .error _ => (st, false)
  | .ok (u, c) =>
    if !cartSaveOk then (st, false)
    else if !userSaveOk then ({ st with cart := some c }, false)
    else ({ cart := some c, user := u }, true)

/-- The core uniqueness invariant: at most one line item per product id. -/
def nodupPids (items : List CartItem) : Prop :=
  (items.map (fun it => it.product.pid)).Nodup

theorem nodupPids_nil : nodupPids [] := List.nodup_nil

/-- Unfolding of checkout on a present cart. -/
theorem checkout_some (dflt : String) (cart : Cart) (user : User) :
    checkout dflt (some cart) user =
      if cart.cartItems.length == 0 then
        .error ⟨BAD_REQUEST, "User's cart doesn't have any product"⟩
      else if !(hasSetNonDefaultAddress dflt user) then
        .error ⟨BAD_REQUEST, "Address not set"⟩
      else if user.walletMoney < cartTotal cart.cartItems then
        .error ⟨BAD_REQUEST, "Wallet balance is insufficient"⟩
      else
        .ok ({ user with walletMoney := user.walletMoney - cartTotal cart.cartItems },
             { cart with cartItems := [] }) := rfl

/-- When checkout itself rejects, neither record in the store changes. -/
theorem checkoutRun_error (dflt : String) (st : PersistedState)
    (b1 b2 : Bool) (e : ApiError)
    (h : checkout dflt st.cart st.user = .error e) :
    checkoutRun dflt st b1 b2 = (st, false) := by
  unfold checkoutRun
  rw [h]

theorem length_beq_zero_false (cart : Cart) (hne : cart.cartItems ≠ []) :
    (cart.cartItems.length == 0) = false := by
  simp only [beq_eq_false_iff_ne, ne_eq, List.length_eq_zero]
  exact hne

theorem not_default_address (dflt : String) (user : User)
    (haddr : user.address ≠ dflt) :
    (!(hasSetNonDefaultAddress dflt user)) = false := by
  simp [hasSetNonDefaultAddress, haddr]

/-- C1: with a non-empty cart, a non-default address and a wallet covering
the total, checkout returns the user debited by exactly the cart total
together with the same cart emptied of items, and a run with succeeding
saves persists exactly those two records. -/
theorem checkout_success (dflt : String) (cart : Cart) (user : User)
    (hne : cart.cartItems ≠ [])
    (haddr : user.address ≠ dflt)
    (hbal : cartTotal cart.cartItems ≤ user.walletMoney) :
    checkout dflt (some cart) user =
      .ok ({ user with walletMoney := user.walletMoney - cartTotal cart.cartItems },
           { cart with cartItems := [] }) ∧
    checkoutRun dflt ⟨some cart, user⟩ true true =
      (⟨some { cart with cartItems := [] },
        { user with walletMoney := user.walletMoney - cartTotal cart.cartItems }⟩, true) := by
  have hok : checkout dflt (some cart) user =
      .ok ({ user with walletMoney := user.walletMoney - cartTotal cart.cartItems },
           { cart with cartItems := [] }) := by
    rw [checkout_some, length_beq_zero_false cart hne, not_default_address dflt user haddr]
    simp [not_lt.mpr hbal]
  refine ⟨hok, ?_⟩
  unfold checkoutRun
  rw [hok]
  rfl

/-- Witness for C1: the specified scenario with items of cost 100 times 2
and cost 50 times 1 against a wallet of 300 succeeds, leaving wallet 50 and
an empty cart that is still stored. -/
theorem checkout_success_example :
    checkout "" (some ⟨"u@x.com", [⟨⟨"p1", 100⟩, 2⟩, ⟨⟨"p2", 50⟩, 1⟩]⟩)
        ⟨"u@x.com", 300, "addr"⟩
      = .ok (⟨"u@x.com", 50, "addr"⟩, ⟨"u@x.com", []⟩) ∧
    checkoutRun "" ⟨some ⟨"u@x.com", [⟨⟨"p1", 100⟩, 2⟩, ⟨⟨"p2", 50⟩, 1⟩]⟩,
        ⟨"u@x.com", 300, "addr"⟩⟩ true true
      = (⟨some ⟨"u@x.com", []⟩, ⟨"u@x.com", 50, "addr"⟩⟩, true) := by
  have h := checkout_success "" ⟨"u@x.com", [⟨⟨"p1", 100⟩, 2⟩, ⟨⟨"p2", 50⟩, 1⟩]⟩
      ⟨"u@x.com", 300, "addr"⟩ (by decide) (by decide) (by decide)
  exact ⟨h.1, h.2⟩

/-- C2: checkout's settlement is not all-or-nothing.  With the specified
scenario (total 250, wallet 300, address set), when the cart save succeeds
but the user save fails, the persisted state has the cart cleared while the
wallet still holds 300: money was not debited but the cart was cleared, and
no Internal ApiError replaces the raw persistence failure. -/
theorem checkout_half_commit_bug :
    checkoutRun "" ⟨some ⟨"u@x.com", [⟨⟨"p1", 100⟩, 2⟩, ⟨⟨"p2", 50⟩, 1⟩]⟩,
        ⟨"u@x.com", 300, "addr"⟩⟩ true false
      = (⟨some ⟨"u@x.com", []⟩, ⟨"u@x.com", 300, "addr"⟩⟩, false) ∧
    cartTotal [⟨⟨"p1", 100⟩, 2⟩, ⟨⟨"p2", 50⟩, 1⟩] = 250 :=
  ⟨rfl, rfl⟩

/-- Counterexample for C3: the empty-cart rejection carries the message of
the source, which is not the string the claim quotes, and likewise for the
address rejection. -/
theorem checkout_empty_cart_message_cex :
    checkout "" (some ⟨"u@x.com", []⟩) ⟨"u@x.com", 300, "addr"⟩
      = .error ⟨BAD_REQUEST, "User's cart doesn't have any product"⟩ ∧
    "User's cart doesn't have any product" ≠ "cart has no product" ∧
    checkout "" (some ⟨"u@x.com", [⟨⟨"p1", 100⟩, 1⟩]⟩) ⟨"u@x.com", 300, ""⟩
      = .error ⟨BAD_REQUEST, "Address not set"⟩ ∧
    "Address not set" ≠ "address not set" :=
  ⟨rfl, by decide, rfl, by decide⟩

/-- C3 (amended): the precondition checks run in order.  A missing cart is
rejected first with 404; an existing empty cart is rejected with 400 and
message "User's cart doesn't have any product" whatever the address and
wallet; a non-empty cart with the address still equal to the default
sentinel is rejected with 400 and message "Address not set" whatever the
wallet balance. -/
theorem checkout_precondition_order (dflt : String) (cart : Cart) (user : User) :
    (checkout dflt none user = .error ⟨NOT_FOUND, "User does not have a cart"⟩) ∧
    (cart.cartItems = [] →
      checkout dflt (some cart) user
        = .error ⟨BAD_REQUEST, "User's cart doesn't have any product"⟩) ∧
    (cart.cartItems ≠ [] → user.address = dflt →
      checkout dflt (some cart) user = .error ⟨BAD_REQUEST, "Address not set"⟩) := by
  refine ⟨rfl, ?_, ?_⟩
  · intro hempty
    rw [checkout_some]
    simp [hempty]
  · intro hne haddr
    rw [checkout_some, length_beq_zero_false cart hne]
    simp [hasSetNonDefaultAddress, haddr]

/-- Witness for C3: concrete carts hitting the empty-cart check before the
(unset) address check, and the address check under an ample wallet. -/
theorem checkout_precondition_order_example :
    checkout "" (some ⟨"u@x.com", []⟩) ⟨"u@x.com", 0, ""⟩
      = .error ⟨BAD_REQUEST, "User's cart doesn't have any product"⟩ ∧
    checkout "" (some ⟨"u@x.com", [⟨⟨"p1", 100⟩, 1⟩]⟩) ⟨"u@x.com", 1000000, ""⟩
      = .error ⟨BAD_REQUEST, "Address not set"⟩ :=
  ⟨(checkout_precondition_order "" ⟨"u@x.com", []⟩ ⟨"u@x.com", 0, ""⟩).2.1 rfl,
   (checkout_precondition_order "" ⟨"u@x.com", [⟨⟨"p1", 100⟩, 1⟩]⟩
      ⟨"u@x.com", 1000000, ""⟩).2.2 (by decide) rfl⟩

/-- Counterexample for C4: the insufficient-balance rejection carries the
message of the source, not the string the claim quotes. -/
theorem checkout_insufficient_message_cex :
    checkout "" (some ⟨"u@x.com", [⟨⟨"p1", 100⟩, 2⟩, ⟨⟨"p2", 50⟩, 1⟩]⟩)
        ⟨"u@x.com", 200, "addr"⟩
      = .error ⟨BAD_REQUEST, "Wallet balance is insufficient"⟩ ∧
    "Wallet balance is insufficient" ≠ "insufficient balance" :=
  ⟨rfl, by decide⟩

/-- C4 (amended): with a non-empty cart, a non-default address and a wallet
strictly below the cart total, checkout rejects with 400 and message
"Wallet balance is insufficient", and a run of the operation leaves both
the stored cart and the stored user exactly as they were. -/
theorem checkout_insufficient_balance (dflt : String) (cart : Cart)
    (user : User) (b1 b2 : Bool)
    (hne : cart.cartItems ≠ [])
    (haddr : user.address ≠ dflt)
    (hlt : user.walletMoney < cartTotal cart.cartItems) :
    checkout dflt (some cart) user
      = .error ⟨BAD_REQUEST, "Wallet balance is insufficient"⟩ ∧
    checkoutRun dflt ⟨some cart, user⟩ b1 b2 = (⟨some cart, user⟩, false) := by
  have herr : checkout dflt (some cart) user
      = .error ⟨BAD_REQUEST, "Wallet balance is insufficient"⟩ := by
    rw [checkout_some, length_beq_zero_false cart hne, not_default_address dflt user haddr]
    simp [hlt]
  exact ⟨herr, checkoutRun_error dflt ⟨some cart, user⟩ b1 b2 _ herr⟩

/-- Witness for C4: the specified wallet 200 against total 250 scenario
fails with the insufficient-balance error and changes nothing. -/
theorem checkout_insufficient_balance_example :
    checkout "" (some ⟨"u@x.com", [⟨⟨"p1", 100⟩, 2⟩, ⟨⟨"p2", 50⟩, 1⟩]⟩)
        ⟨"u@x.com", 200, "addr"⟩
      = .error ⟨BAD_REQUEST, "Wallet balance is insufficient"⟩ ∧
    checkoutRun "" ⟨some ⟨"u@x.com", [⟨⟨"p1", 100⟩, 2⟩, ⟨⟨"p2", 50⟩, 1⟩]⟩,
        ⟨"u@x.com", 200, "addr"⟩⟩ true true
      = (⟨some ⟨"u@x.com", [⟨⟨"p1", 100⟩, 2⟩, ⟨⟨"p2", 50⟩, 1⟩]⟩,
          ⟨"u@x.com", 200, "addr"⟩⟩, false) := by
  have h := checkout_insufficient_balance ""
      ⟨"u@x.com", [⟨⟨"p1", 100⟩, 2⟩, ⟨⟨"p2", 50⟩, 1⟩]⟩
      ⟨"u@x.com", 200, "addr"⟩ true true (by decide) (by decide) (by decide)
  exact ⟨h.1, h.2⟩

/-- Counterexample for C9: deleting from a missing cart rejects with the
long message of the source, not the exact string the claim quotes. -/
theorem deleteProduct_no_cart_message_cex :
    deleteProductFromCart none "p1"
      = .error ⟨BAD_REQUEST,
          "User does not have a cart. Use POST to create cart and add a product"⟩ ∧
    "User does not have a cart. Use POST to create cart and add a product"
      ≠ "user does not have a cart" :=
  ⟨rfl, by decide⟩

/-- C9 (amended): for every product id, deleting from a user with no cart
rejects with status 400 and the fixed verbatim message
"User does not have a cart. Use POST to create cart and add a product". -/
theorem deleteProduct_no_cart_error (productId : String) :
    deleteProductFromCart none productId
      = .error ⟨BAD_REQUEST,
          "User does not have a cart. Use POST to create cart and add a product"⟩ :=
  rfl

/-- Appending a line item for a product id not yet present keeps the
per-product uniqueness of a cart's items. -/
theorem nodupPids_append_new (items : List CartItem) (it : CartItem)
    (h : nodupPids items) (hnot : ∀ x ∈ items, x.product.pid ≠ it.product.pid) :
    nodupPids (items ++ [it]) := by
  unfold nodupPids at h ⊢
  rw [List.map_append]
  simp only [List.map_singleton]
  rw [List.nodup_append]
  refine ⟨h, List.nodup_singleton _, ?_⟩
  rw [List.disjoint_singleton]
  intro hmem
  obtain ⟨x, hx, hpid⟩ := List.mem_map.1 hmem
  exact hnot x hx hpid

/-- The quantity overwrite of updateProductInCart does not touch the
product snapshot of any line item. -/
theorem updater_product (it : CartItem) (productId : String) (q : Int) :
    (if it.product.pid == productId then { it with quantity := q }
     else it).product = it.product := by
  split <;> rfl

/-- Mapping the quantity overwrite over the items keeps the product
snapshots, hence the sequence of product ids. -/
theorem map_product_update (items : List CartItem) (productId : String) (q : Int) :
    ((items.map (fun it =>
        if it.product.pid == productId then { it with quantity := q }
        else it)).map (fun it => it.product))
      = items.map (fun it => it.product) := by
  rw [List.map_map]
  exact List.map_congr_left (fun it _ => updater_product it productId q)

theorem map_pid_update (items : List CartItem) (productId : String) (q : Int) :
    ((items.map (fun it =>
        if it.product.pid == productId then { it with quantity := q }
        else it)).map (fun it => it.product.pid))
      = items.map (fun it => it.product.pid) := by
  rw [List.map_map]
  refine List.map_congr_left (fun it _ => ?_)
  show (if it.product.pid == productId then { it with quantity := q }
        else it).product.pid = it.product.pid
  rw [updater_product]

/-- Whatever index splice is given, the result drops at most one element,
so it is a sublist of the original items. -/
theorem spliceOne_sublist (items : List CartItem) (start : Int) :
    (spliceOne items start).Sublist items := by
  unfold spliceOne
  have h1 : (items.drop (spliceStart items.length start + 1)).Sublist
      (items.drop (spliceStart items.length start)) := by
    have := List.drop_drop 1 (spliceStart items.length start) items
    rw [← this]
    exact List.drop_sublist 1 _
  have h2 := h1.append_left (items.take (spliceStart items.length start))
  rw [List.take_append_drop] at h2
  exact h2

/-- A product missing from the catalog makes addProductToCart reject. -/
theorem addProductToCart_none_product (catalog : List Product)
    (userCart : Option Cart) (user : User) (pid : String) (q : Int)
    (hp : findById catalog pid = none) :
    addProductToCart catalog userCart user pid q
      = .error ⟨BAD_REQUEST, "Product doesn't exist in database"⟩ := by
  unfold addProductToCart
  rw [hp]

/-- Unfolding of addProductToCart on a present cart. -/
theorem addProductToCart_some (catalog : List Product) (cart : Cart)
    (user : User) (pid : String) (q : Int) :
    addProductToCart catalog (some cart) user pid q =
      match findById catalog pid with
      | none => .error ⟨BAD_REQUEST, "Product doesn't exist in database"⟩
      | some productDoc =>
          if cart.cartItems.any (fun items => items.product.pid == pid) then
            .error ⟨BAD_REQUEST,
              "Product already in cart. Use the cart sidebar to update or remove product from cart"⟩
          else
            .ok { cart with
                  cartItems := cart.cartItems
                    ++ [{ product := productDoc, quantity := q }] } := rfl

/-- Unfolding of updateProductInCart on a present cart. -/
theorem updateProductInCart_some (catalog : List Product) (cart : Cart)
    (pid : String) (q : Int) :
    updateProductInCart catalog (some cart) pid q =
      match findById catalog pid with
      | none => .error ⟨BAD_REQUEST, "Product doesn't exist in database"⟩
      | some _ =>
        match cart.cartItems.find? (fun items => items.product.pid == pid) with
        | none => .error ⟨BAD_REQUEST, "Product not in cart"⟩
        | some _ =>
            .ok { cart with
                  cartItems := cart.cartItems.map (fun items =>
                    if items.product.pid == pid then { items with quantity := q }
                    else items) } := rfl

/-- Unfolding of deleteProductFromCart on a present cart. -/
theorem deleteProductFromCart_some (cart : Cart) (pid : String) :
    deleteProductFromCart (some cart) pid =
      match cart.cartItems.find? (fun items => items.product.pid == pid) with
      | none => .error ⟨BAD_REQUEST, "Product not in cart"⟩
      | some _ =>
          .ok { cart with
                cartItems := spliceOne cart.cartItems
                  (lastIndexOfProduct cart.cartItems pid) } := rfl

/-- C5: every cart operation preserves the at-most-one-line-item-per-product
invariant: starting from a cart whose item list has pairwise distinct
product ids, any successful addProductToCart, updateProductInCart,
deleteProductFromCart or checkout yields a cart whose item list again has
pairwise distinct product ids. -/
theorem cart_uniqueness_preserved (catalog : List Product) (cart : Cart)
    (user : User) (pid : String) (q : Int) (dflt : String)
    (hinv : nodupPids cart.cartItems) :
    (∀ c, addProductToCart catalog (some cart) user pid q = .ok c →
      nodupPids c.cartItems) ∧
    (∀ c, updateProductInCart catalog (some cart) pid q = .ok c →
      nodupPids c.cartItems) ∧
    (∀ c, deleteProductFromCart (some cart) pid = .ok c →
      nodupPids c.cartItems) ∧
    (∀ u c, checkout dflt (some cart) user = .ok (u, c) →
      nodupPids c.cartItems) := by
  refine ⟨?_, ?_, ?_, ?_⟩
  · intro c h
    rw [addProductToCart_some] at h
    cases hp : findById catalog pid with
    | none => rw [hp] at h; exact Except.noConfusion h
    | some p =>
      rw [hp] at h
      simp only at h
      split at h
      · exact Except.noConfusion h
      · next hconf =>
        injection h with h'
        subst h'
        show nodupPids (cart.cartItems ++ [{ product := p, quantity := q }])
        have hppid : p.pid = pid := by
          have := List.find?_some hp
          simpa using this
        refine nodupPids_append_new cart.cartItems _ hinv ?_
        intro x hx
        show x.product.pid ≠ p.pid
        rw [hppid]
        intro heq
        exact hconf (List.any_eq_true.2 ⟨x, hx, by simp [heq]⟩)
  · intro c h
    rw [updateProductInCart_some] at h
    cases hp : findById catalog pid with
    | none => rw [hp] at h; exact Except.noConfusion h
    | some p =>
      rw [hp] at h
      simp only at h
      cases hf : cart.cartItems.find? (fun items => items.product.pid == pid) with
      | none => rw [hf] at h; exact Except.noConfusion h
      | some it =>
        rw [hf] at h
        simp only at h
        injection h with h'
        subst h'
        show nodupPids (cart.cartItems.map (fun items =>
          if items.product.pid == pid then { items with quantity := q } else items))
        unfold nodupPids
        rw [map_pid_update]
        exact hinv
  · intro c h
    rw [deleteProductFromCart_some] at h
    cases hf : cart.cartItems.find? (fun items => items.product.pid == pid) with
    | none => rw [hf] at h; exact Except.noConfusion h
    | some it =>
      rw [hf] at h
      simp only at h
      injection h with h'
      subst h'
      show nodupPids (spliceOne cart.cartItems (lastIndexOfProduct cart.cartItems pid))
      exact List.Nodup.sublist
        ((spliceOne_sublist cart.cartItems _).map (fun x => x.product.pid)) hinv
  · intro u c h
    rw [checkout_some] at h
    split at h
    · exact Except.noConfusion h
    · split at h
      · exact Except.noConfusion h
      · split at h
        · exact Except.noConfusion h
        · injection h with h'
          injection h' with h1 h2
          subst h2
          exact nodupPids_nil

/-- Witness for C5: a one-item cart satisfies the invariant, and so does the
two-item cart produced by a successful add of a second product. -/
theorem cart_uniqueness_preserved_example :
    nodupPids ([⟨⟨"p1", 100⟩, 2⟩] : List CartItem) ∧
    nodupPids ([⟨⟨"p1", 100⟩, 2⟩, ⟨⟨"p2", 50⟩, 1⟩] : List CartItem) := by
  have hinv : nodupPids ([⟨⟨"p1", 100⟩, 2⟩] : List CartItem) := by
    unfold nodupPids
    decide
  have h := cart_uniqueness_preserved [⟨"p2", 50⟩] ⟨"u", [⟨⟨"p1", 100⟩, 2⟩]⟩
      ⟨"u", 0, "a"⟩ "p2" 1 "" hinv
  exact ⟨hinv, h.1 ⟨"u", [⟨⟨"p1", 100⟩, 2⟩, ⟨⟨"p2", 50⟩, 1⟩]⟩ rfl⟩

/-- Counterexample for C6: with the product id already in the cart, the
operation need not fail with the Conflict error the claim states.  When the
product is missing from the catalog the catalog check fires first, and even
when the Conflict branch fires its message is the long sidebar string, not
the string the claim quotes. -/
theorem addProduct_conflict_message_cex :
    addProductToCart [] (some ⟨"u", [⟨⟨"p1", 10⟩, 1⟩]⟩) ⟨"u", 0, "a"⟩ "p1" 2
      = .error ⟨BAD_REQUEST, "Product doesn't exist in database"⟩ ∧
    "Product doesn't exist in database" ≠ "product already in cart" ∧
    addProductToCart [⟨"p1", 10⟩] (some ⟨"u", [⟨⟨"p1", 10⟩, 1⟩]⟩) ⟨"u", 0, "a"⟩ "p1" 2
      = .error ⟨BAD_REQUEST,
          "Product already in cart. Use the cart sidebar to update or remove product from cart"⟩ ∧
    "Product already in cart. Use the cart sidebar to update or remove product from cart"
      ≠ "product already in cart" :=
  ⟨rfl, by decide, rfl, by decide⟩

/-- C6 (amended): when the product id is found in the catalog and the cart
exists, addProductToCart rejects with status 400 and the verbatim sidebar
Conflict message if some line item already carries this product id, leaving
the stored cart as it was; and when no line item carries it, the operation
appends the new line item at the end of the item list. -/
theorem addProduct_conflict_or_append (catalog : List Product) (cart : Cart)
    (user : User) (pid : String) (q : Int) (p : Product)
    (hp : findById catalog pid = some p) :
    ((∃ x ∈ cart.cartItems, x.product.pid = pid) →
      addProductToCart catalog (some cart) user pid q
        = .error ⟨BAD_REQUEST,
            "Product already in cart. Use the cart sidebar to update or remove product from cart"⟩) ∧
    ((∀ x ∈ cart.cartItems, x.product.pid ≠ pid) →
      addProductToCart catalog (some cart) user pid q
        = .ok { cart with
                cartItems := cart.cartItems ++ [{ product := p, quantity := q }] }) := by
  rw [addProductToCart_some, hp]
  simp only
  constructor
  · intro hmem
    have hany : cart.cartItems.any (fun items => items.product.pid == pid) = true := by
      obtain ⟨x, hx, hpid⟩ := hmem
      exact List.any_eq_true.2 ⟨x, hx, by simp [hpid]⟩
    rw [if_pos hany]
  · intro hnone
    have hany : cart.cartItems.any (fun items => items.product.pid == pid) = false := by
      rw [Bool.eq_false_iff]
      intro hany
      obtain ⟨x, hx, hpid⟩ := List.any_eq_true.1 hany
      exact hnone x hx (by simpa using hpid)
    rw [hany]
    simp

/-- Witness for C6: adding product p1 a second time hits the Conflict
rejection; adding the absent p2 appends it at the end. -/
theorem addProduct_conflict_or_append_example :
    addProductToCart [⟨"p1", 10⟩, ⟨"p2", 50⟩] (some ⟨"u", [⟨⟨"p1", 10⟩, 1⟩]⟩)
        ⟨"u", 0, "a"⟩ "p1" 2
      = .error ⟨BAD_REQUEST,
          "Product already in cart. Use the cart sidebar to update or remove product from cart"⟩ ∧
    addProductToCart [⟨"p1", 10⟩, ⟨"p2", 50⟩] (some ⟨"u", [⟨⟨"p1", 10⟩, 1⟩]⟩)
        ⟨"u", 0, "a"⟩ "p2" 3
      = .ok ⟨"u", [⟨⟨"p1", 10⟩, 1⟩, ⟨⟨"p2", 50⟩, 3⟩]⟩ := by
  have h1 := addProduct_conflict_or_append [⟨"p1", 10⟩, ⟨"p2", 50⟩]
      ⟨"u", [⟨⟨"p1", 10⟩, 1⟩]⟩ ⟨"u", 0, "a"⟩ "p1" 2 ⟨"p1", 10⟩ rfl
  have h2 := addProduct_conflict_or_append [⟨"p1", 10⟩, ⟨"p2", 50⟩]
      ⟨"u", [⟨⟨"p1", 10⟩, 1⟩]⟩ ⟨"u", 0, "a"⟩ "p2" 3 ⟨"p2", 50⟩ rfl
  exact ⟨h1.1 ⟨⟨⟨"p1", 10⟩, 1⟩, by simp⟩, h2.2 (by decide)⟩

/-- C7: when the product is in the catalog and some line item of the cart
carries its id, updateProductInCart succeeds, mapping the overwrite over
the items, and in the resulting cart every line item carrying the id holds
exactly the new quantity (replaced, not incremented). -/
theorem updateProduct_replaces_quantity (catalog : List Product) (cart : Cart)
    (pid : String) (q : Int) (p : Product)
    (hp : findById catalog pid = some p)
    (hmem : ∃ x ∈ cart.cartItems, x.product.pid = pid) :
    updateProductInCart catalog (some cart) pid q
      = .ok { cart with
              cartItems := cart.cartItems.map (fun items =>
                if items.product.pid == pid then { items with quantity := q }
                else items) } ∧
    ∀ c, updateProductInCart catalog (some cart) pid q = .ok c →
      ∀ it ∈ c.cartItems, it.product.pid = pid → it.quantity = q := by
  have hfindsome : (cart.cartItems.find?
      (fun items => items.product.pid == pid)).isSome = true := by
    rw [List.find?_isSome]
    obtain ⟨x, hx, hpid⟩ := hmem
    exact ⟨x, hx, by simp [hpid]⟩
  obtain ⟨it0, hf⟩ := Option.isSome_iff_exists.1 hfindsome
  have hok : updateProductInCart catalog (some cart) pid q
      = .ok { cart with
              cartItems := cart.cartItems.map (fun items =>
                if items.product.pid == pid then { items with quantity := q }
                else items) } := by
    rw [updateProductInCart_some, hp]
    simp only
    rw [hf]
  refine ⟨hok, ?_⟩
  intro c hc it hit hpid
  rw [hok] at hc
  injection hc with hc'
  subst hc'
  simp only at hit
  obtain ⟨x, hx, hxit⟩ := List.mem_map.1 hit
  by_cases hxp : x.product.pid == pid
  · rw [if_pos hxp] at hxit
    rw [← hxit]
  · rw [if_neg hxp] at hxit
    subst hxit
    exact absurd hpid (by simpa using hxp)

/-- Witness for C7: the add-then-update scenario.  Adding p1 with quantity
2 creates the cart, and updating p1 to quantity 5 leaves a single line item
holding exactly 5. -/
theorem updateProduct_replaces_quantity_example :
    addProductToCart [⟨"p1", 10⟩] none ⟨"u", 0, "a"⟩ "p1" 2
      = .ok ⟨"u", [⟨⟨"p1", 10⟩, 2⟩]⟩ ∧
    updateProductInCart [⟨"p1", 10⟩] (some ⟨"u", [⟨⟨"p1", 10⟩, 2⟩]⟩) "p1" 5
      = .ok ⟨"u", [⟨⟨"p1", 10⟩, 5⟩]⟩ := by
  have h := updateProduct_replaces_quantity [⟨"p1", 10⟩] ⟨"u", [⟨⟨"p1", 10⟩, 2⟩]⟩
      "p1" 5 ⟨"p1", 10⟩ rfl ⟨⟨⟨"p1", 10⟩, 2⟩, by simp⟩
  exact ⟨rfl, h.1⟩

/-- C10: a successful updateProductInCart only overwrites quantities of
line items carrying the updated product id.  The item count is kept, every
stored product snapshot (cost included) is kept in place, every line item
whose product id differs is kept identical at its position, and every line
item carrying the id is kept at its position with only its quantity
replaced by the new value. -/
theorem updateProduct_frame (catalog : List Product) (cart : Cart)
    (pid : String) (q : Int) (c : Cart)
    (h : updateProductInCart catalog (some cart) pid q = .ok c) :
    c.cartItems.length = cart.cartItems.length ∧
    c.cartItems.map (fun it => it.product) = cart.cartItems.map (fun it => it.product) ∧
    ∀ i : Nat, ∀ it, cart.cartItems[i]? = some it →
      (it.product.pid ≠ pid → c.cartItems[i]? = some it) ∧
      (it.product.pid = pid → c.cartItems[i]? = some { it with quantity := q }) := by
  rw [updateProductInCart_some] at h
  cases hp : findById catalog pid with
  | none => rw [hp] at h; exact Except.noConfusion h
  | some p =>
    rw [hp] at h
    simp only at h
    cases hf : cart.cartItems.find? (fun items => items.product.pid == pid) with
    | none => rw [hf] at h; exact Except.noConfusion h
    | some it0 =>
      rw [hf] at h
      simp only at h
      injection h with h'
      subst h'
      refine ⟨by simp, map_product_update cart.cartItems pid q, ?_⟩
      intro i it hget
      have hmap : (cart.cartItems.map (fun items =>
          if items.product.pid == pid then { items with quantity := q }
          else items))[i]?
          = Option.map (fun items =>
              if items.product.pid == pid then { items with quantity := q }
              else items) cart.cartItems[i]? :=
        List.getElem?_map _ cart.cartItems i
      constructor
      · intro hne
        show (cart.cartItems.map _)[i]? = some it
        rw [hmap, hget]
        simp only [Option.map_some']
        rw [if_neg (by simpa using hne)]
      · intro heq
        show (cart.cartItems.map _)[i]? = some { it with quantity := q }
        rw [hmap, hget]
        simp only [Option.map_some']
        rw [if_pos (by simpa using heq)]

/-- Witness for C10: updating p1 in a two-item cart keeps the length and
keeps the non-matching second line item identical at its index. -/
theorem updateProduct_frame_example :
    ([⟨⟨"p1", 10⟩, 5⟩, ⟨⟨"p2", 20⟩, 7⟩] : List CartItem).length
      = ([⟨⟨"p1", 10⟩, 2⟩, ⟨⟨"p2", 20⟩, 7⟩] : List CartItem).length ∧
    ([⟨⟨"p1", 10⟩, 5⟩, ⟨⟨"p2", 20⟩, 7⟩] : List CartItem)[1]? = some ⟨⟨"p2", 20⟩, 7⟩ ∧
    ([⟨⟨"p1", 10⟩, 5⟩, ⟨⟨"p2", 20⟩, 7⟩] : List CartItem)[0]? = some ⟨⟨"p1", 10⟩, 5⟩ := by
  have h := updateProduct_frame [⟨"p1", 10⟩] ⟨"u", [⟨⟨"p1", 10⟩, 2⟩, ⟨⟨"p2", 20⟩, 7⟩]⟩
      "p1" 5 ⟨"u", [⟨⟨"p1", 10⟩, 5⟩, ⟨⟨"p2", 20⟩, 7⟩]⟩ rfl
  refine ⟨h.1, ?_, ?_⟩
  · exact (h.2.2 1 ⟨⟨"p2", 20⟩, 7⟩ rfl).1 (by decide)
  · exact (h.2.2 0 ⟨⟨"p1", 10⟩, 2⟩ rfl).2 rfl

/-- The forEach loop leaves its index untouched when nothing matches. -/
theorem forEachIndex_no_match (items : List CartItem) (pid : String)
    (a n : Int) (h : ∀ x ∈ items, x.product.pid ≠ pid) :
    forEachIndex items pid a n = a := by
  induction items generalizing a n with
  | nil => rfl
  | cons x rest ih =>
    have hx : (x.product.pid == pid) = false := by
      simpa using h x (List.mem_cons_self x rest)
    show forEachIndex rest pid (if x.product.pid == pid then n else a) (n + 1) = a
    rw [hx]
    exact ih _ _ (fun y hy => h y (List.mem_cons_of_mem x hy))

/-- The forEach loop ends at the position of the last match: with a match
at position pre.length and none after it, it returns n + pre.length. -/
theorem forEachIndex_last (pre : List CartItem) (it : CartItem)
    (post : List CartItem) (pid : String) (a n : Int)
    (hit : it.product.pid = pid)
    (hpost : ∀ x ∈ post, x.product.pid ≠ pid) :
    forEachIndex (pre ++ it :: post) pid a n = n + pre.length := by
  induction pre generalizing a n with
  | nil =>
    show forEachIndex post pid (if it.product.pid == pid then n else a) (n + 1)
        = n + (([] : List CartItem)).length
    rw [hit]
    simp only [beq_self_eq_true, if_true]
    rw [forEachIndex_no_match post pid n (n + 1) hpost]
    simp
  | cons x pre' ih =>
    show forEachIndex (pre' ++ it :: post) pid
        (if x.product.pid == pid then n else a) (n + 1)
        = n + ((x :: pre')).length
    rw [ih]
    simp only [List.length_cons]
    push_cast
    ring

/-- find? over a decomposition with no match before the marked item. -/
theorem find?_decomp (pre post : List CartItem) (it : CartItem) (pid : String)
    (hpre : ∀ x ∈ pre, x.product.pid ≠ pid)
    (hit : it.product.pid = pid) :
    (pre ++ it :: post).find? (fun x => x.product.pid == pid) = some it := by
  induction pre with
  | nil =>
    show (it :: post).find? (fun x => x.product.pid == pid) = some it
    exact List.find?_cons_of_pos post (by simp [hit])
  | cons x pre' ih =>
    show (x :: (pre' ++ it :: post)).find? (fun x => x.product.pid == pid) = some it
    rw [List.find?_cons_of_neg]
    · exact ih (fun y hy => hpre y (List.mem_cons_of_mem x hy))
    · simpa using hpre x (List.mem_cons_self x pre')

/-- C8: in a cart whose items split as pre ++ it :: post with it the only
line item carrying the deleted product id, deleteProductFromCart removes
exactly it — by its index — leaving pre ++ post, a list one shorter with
every other line item unchanged. -/
theorem deleteProduct_removes_by_index (cart : Cart) (pid : String)
    (pre post : List CartItem) (it : CartItem)
    (hsplit : cart.cartItems = pre ++ it :: post)
    (hit : it.product.pid = pid)
    (hpre : ∀ x ∈ pre, x.product.pid ≠ pid)
    (hpost : ∀ x ∈ post, x.product.pid ≠ pid) :
    deleteProductFromCart (some cart) pid
      = .ok { cart with cartItems := pre ++ post } ∧
    (pre ++ post).length + 1 = cart.cartItems.length := by
  have hf : cart.cartItems.find? (fun x => x.product.pid == pid) = some it := by
    rw [hsplit]
    exact find?_decomp pre post it pid hpre hit
  have hlast : lastIndexOfProduct cart.cartItems pid = (pre.length : Int) := by
    unfold lastIndexOfProduct
    rw [hsplit, forEachIndex_last pre it post pid (-1) 0 hit hpost]
    simp
  have hstart : spliceStart (pre ++ it :: post).length ((pre.length : Int))
      = pre.length := by
    unfold spliceStart
    rw [if_neg (by simp), Int.toNat_natCast]
    exact min_eq_left (by simp)
  have hsplice : spliceOne cart.cartItems ((pre.length : Int)) = pre ++ post := by
    rw [hsplit]
    show List.take (spliceStart (pre ++ it :: post).length ((pre.length : Int)))
          (pre ++ it :: post)
        ++ List.drop (spliceStart (pre ++ it :: post).length ((pre.length : Int)) + 1)
          (pre ++ it :: post)
      = pre ++ post
    rw [hstart, List.take_left, ← List.drop_drop, List.drop_left]
    rfl
  constructor
  · rw [deleteProductFromCart_some, hf]
    simp only
    rw [hlast, hsplice]
  · rw [hsplit]
    simp [List.length_append]
    omega

/-- Witness for C8: deleting p1 from a cart whose two line items carry the
same quantity removes exactly the p1 item, shrinking the list by one. -/
theorem deleteProduct_removes_by_index_example :
    deleteProductFromCart (some ⟨"u", [⟨⟨"p1", 10⟩, 3⟩, ⟨⟨"p2", 20⟩, 3⟩]⟩) "p1"
      = .ok ⟨"u", [⟨⟨"p2", 20⟩, 3⟩]⟩ ∧
    (([] ++ [⟨⟨"p2", 20⟩, 3⟩] : List CartItem)).length + 1
      = ([⟨⟨"p1", 10⟩, 3⟩, ⟨⟨"p2", 20⟩, 3⟩] : List CartItem).length := by
  have h := deleteProduct_removes_by_index
      ⟨"u", [⟨⟨"p1", 10⟩, 3⟩, ⟨⟨"p2", 20⟩, 3⟩]⟩ "p1"
      [] [⟨⟨"p2", 20⟩, 3⟩] ⟨⟨"p1", 10⟩, 3⟩ rfl rfl
      (by intro x hx; simp at hx) (by decide)
  exact ⟨h.1, h.2⟩
